import Mathlib

/-!
Shallow embedding of the scripts in rizwanahmed2022/Java-Script:
a digital clock widget, a weather fetch-and-render snippet, two
script loaders (callback form and promise-retry form), and the
Student / CS_Student class hierarchy.  Machine state (the DOM nodes
each script writes, the mutable object fields) is passed explicitly;
console output is modelled as a list of logged strings, one entry per
console.log call.
-/

/-- Model of the parts of a JavaScript `Date` object used by the
repository.  `month` is the calendar month (1..12); the JS accessor
`getMonth()` is zero-based, which `JSDate.getMonth` reproduces. -/
structure JSDate where
  hours : Nat
  minutes : Nat
  seconds : Nat
  day : Nat
  month : Nat
  year : Nat
deriving Repr, DecidableEq

def JSDate.getHours (d : JSDate) : Nat := d.hours

def JSDate.getMinutes (d : JSDate) : Nat := d.minutes

def JSDate.getSeconds (d : JSDate) : Nat := d.seconds

def JSDate.getDate (d : JSDate) : Nat := d.day

/-- JavaScript `Date.prototype.getMonth` is zero-based: January is 0.
Our `month` field is the calendar month, so `getMonth` subtracts 1. -/
def JSDate.getMonth (d : JSDate) : Nat := d.month - 1

def JSDate.getFullYear (d : JSDate) : Nat := d.year

/-! ## Clock widget (src/unnamed/part_000)

The `setInterval` callback samples a `Date`, computes a 12-hour value,
an AM/PM period, zero-pads the numbers and writes four innerHTML
strings. -/

/-- The JS pattern `n < 10 ? '0' + n : n` used by the clock callback. -/
def padTwo (n : Nat) : String :=
  if n < 10 then "0" ++ toString n else toString n

/-- The four DOM nodes of class "time" that the clock writes. -/
structure ClockDom where
  hHTML : String
  mHTML : String
  sHTML : String
  ampmHTML : String
deriving Repr, DecidableEq

/-- Hour rendering of the clock callback:
`hours = hours % 12; hours = hours ? hours : 12;` then zero-pad. -/
def clockRenderHour (h : Nat) : String :=
  let h12 := h % 12
  let h12 := if h12 = 0 then 12 else h12
  padTwo h12

/-- Period rendering: `period = hours >= 12 ? 'PM' : 'AM'`. -/
def clockRenderPeriod (h : Nat) : String :=
  if h ≥ 12 then "PM" else "AM"

/-- One tick of the clock: what the interval callback writes into the
four DOM nodes for the sampled time `now`. -/
def clockTick (now : JSDate) : ClockDom :=
  { hHTML := clockRenderHour now.getHours ++ ":"
    mHTML := padTwo now.getMinutes ++ ":"
    sHTML := padTwo now.getSeconds ++ "  "
    ampmHTML := " " ++ clockRenderPeriod now.getHours }

/-- JavaScript `a || b` on numbers: returns `a` unless `a` is falsy
(0), in which case `b`. -/
def jsOrNat (a b : Nat) : Nat :=
  if a = 0 then b else a

/-- The hour formula as the specification words it:
`((T.hours % 12) || 12)` zero-padded to two digits. -/
def specClockHour (h : Nat) : String :=
  padTwo (jsOrNat (h % 12) 12)

/-- C1: for every sampled time T (hours in 0..23), the rendered hour
string is `((T.hours % 12) || 12)` zero-padded, and the rendered
period is "AM" iff `T.hours < 12`. -/
theorem clock_hour_and_period (now : JSDate) (hlt : now.hours < 24) :
    (clockTick now).hHTML = specClockHour now.hours ++ ":" ∧
    ((clockTick now).ampmHTML = " AM" ↔ now.hours < 12) := by
  have hh : (clockTick now).hHTML = clockRenderHour now.hours ++ ":" := rfl
  have hp : (clockTick now).ampmHTML = " " ++ clockRenderPeriod now.hours := rfl
  rw [hh, hp]
  revert hlt
  generalize now.hours = h
  intro hlt
  interval_cases h <;> exact ⟨rfl, by decide⟩

/-- Witness for C1 at the concrete sampled hour 13:45:07. -/
theorem clock_hour_and_period_witness :
    (clockTick ⟨13, 45, 7, 1, 1, 2025⟩).hHTML = specClockHour 13 ++ ":" ∧
    ((clockTick ⟨13, 45, 7, 1, 1, 2025⟩).ampmHTML = " AM" ↔ (13 : Nat) < 12) :=
  clock_hour_and_period ⟨13, 45, 7, 1, 1, 2025⟩ (by decide)

/-! ## Weather fetch (src/fatch API/script.js)

`weather()` sets the "fetching" node visible and the "cantainer" node
hidden, fires a fetch, and in the promise chain either throws on a
non-OK status (caught by `.catch`, which shows the error node and
writes the coerced error string into it) or writes the three JSON
fields into the DOM and swaps the two displays. -/

/-- The DOM nodes the weather script reads and writes. -/
structure WeatherDom where
  fetchingDisplay : String
  cantainerDisplay : String
  fetchingHTML : String
  cityHTML : String
  citytempHTML : String
  windHTML : String
  desHTML : String
deriving Repr, DecidableEq

/-- A completed HTTP response: `ok` is true exactly for 2xx statuses;
the three fields are those the script reads from the parsed JSON. -/
structure WeatherResponse where
  ok : Bool
  temperature : String
  wind : String
  description : String
deriving Repr, DecidableEq

/-- The first `.then` handler: `if (!value.ok) throw new Error(...)`,
else pass the response on.  The thrown message interpolates the user
input: `` `${userinput.value} Not Found :` ``. -/
def checkOk (userinput : String) (value : WeatherResponse) :
    Except String WeatherResponse :=
  if !value.ok then Except.error (userinput ++ " Not Found :")
  else Except.ok value

/-- Coercion of a JS `Error` object to a string, as performed by the
assignment `fetching.innerHTML = error`. -/
def errorToString (msg : String) : String := "Error: " ++ msg

/-- The whole `weather()` run on a completed response: the initial
display writes, then the `.then`/`.catch` chain. -/
def weather (userinput : String) (resp : WeatherResponse)
    (d : WeatherDom) : WeatherDom :=
  let d1 := { d with fetchingDisplay := "flex", cantainerDisplay := "none" }
  match checkOk userinput resp with
  | Except.ok value =>
      { d1 with fetchingDisplay := "none", cantainerDisplay := "flex",
                cityHTML := userinput,
                citytempHTML := value.temperature,
                windHTML := value.wind,
                desHTML := value.description }
  | Except.error e =>
      { d1 with fetchingDisplay := "flex", cantainerDisplay := "none",
                fetchingHTML := errorToString e }

/-- C2: a non-2xx response makes the first handler throw, leaves the
error node visible (display "flex") with the coerced error string in
it and the data node hidden (display "none"); a 2xx response shows
the data node, hides the error node and writes the temperature, wind
and description fields into the DOM. -/
theorem weather_display_contract (userinput : String)
    (resp : WeatherResponse) (d : WeatherDom) :
    (resp.ok = false →
      checkOk userinput resp = Except.error (userinput ++ " Not Found :") ∧
      (weather userinput resp d).fetchingDisplay = "flex" ∧
      (weather userinput resp d).cantainerDisplay = "none" ∧
      (weather userinput resp d).fetchingHTML =
        errorToString (userinput ++ " Not Found :")) ∧
    (resp.ok = true →
      (weather userinput resp d).fetchingDisplay = "none" ∧
      (weather userinput resp d).cantainerDisplay = "flex" ∧
      (weather userinput resp d).citytempHTML = resp.temperature ∧
      (weather userinput resp d).windHTML = resp.wind ∧
      (weather userinput resp d).desHTML = resp.description) := by
  constructor
  · intro hok
    have hc : checkOk userinput resp =
        Except.error (userinput ++ " Not Found :") := by
      simp [checkOk, hok]
    refine ⟨hc, ?_, ?_, ?_⟩ <;> simp [weather, hc]
  · intro hok
    have hc : checkOk userinput resp = Except.ok resp := by
      simp [checkOk, hok]
    refine ⟨?_, ?_, ?_, ?_, ?_⟩ <;> simp [weather, hc]

/-- Witness for C2: both branches evaluated on concrete responses. -/
theorem weather_display_contract_witness :
    (weather "Berlin" ⟨false, "5 C", "3 km/h", "Rain"⟩
        ⟨"none", "flex", "", "", "", "", ""⟩).fetchingHTML =
      errorToString ("Berlin" ++ " Not Found :") ∧
    (weather "Berlin" ⟨true, "5 C", "3 km/h", "Rain"⟩
        ⟨"none", "flex", "", "", "", "", ""⟩).citytempHTML = "5 C" :=
  ⟨((weather_display_contract "Berlin" ⟨false, "5 C", "3 km/h", "Rain"⟩
      ⟨"none", "flex", "", "", "", "", ""⟩).1 rfl).2.2.2,
   ((weather_display_contract "Berlin" ⟨true, "5 C", "3 km/h", "Rain"⟩
      ⟨"none", "flex", "", "", "", "", ""⟩).2 rfl).2.2.1⟩

/-! ## Script loader, callback form (src/Callbacks/script.js)

`func(src, load)` creates a script tag, sets `onload` to call
`load(false, src)` and `onerror` to call `load(true, src)`.  The
browser fires exactly one of the two events for the injected tag; the
model maps the fired event to the list of callback invocations it
causes, each invocation an (error flag, src) pair. -/

/-- The single load event the browser delivers to an injected script
tag. -/
inductive ScriptEvent where
  | onload : ScriptEvent
  | onerror : ScriptEvent
deriving Repr, DecidableEq

/-- Callback invocations performed by the handlers `func` installs,
given which event fired: `onload` runs `load(false, src)` once,
`onerror` runs `load(true, src)` once. -/
def funcInvocations (src : String) (ev : ScriptEvent) :
    List (Bool × String) :=
  match ev with
  | ScriptEvent.onload => [(false, src)]
  | ScriptEvent.onerror => [(true, src)]

/-- C4: whichever event fires, the callback is invoked exactly once;
its error flag is false exactly when the event was `onload` (true for
`onerror`), and its second argument is the input URL. -/
theorem callback_loader_contract (src : String) (ev : ScriptEvent) :
    (funcInvocations src ev).length = 1 ∧
    ∀ c ∈ funcInvocations src ev,
      c.2 = src ∧ (c.1 = false ↔ ev = ScriptEvent.onload) := by
  cases ev <;> simp [funcInvocations]

/-! ## Script loader, promise form with nested retries (src/unnamed/part_002)

`func(src)` returns a promise that resolves on `onload` and rejects on
`onerror`.  The caller chains
`func(url).then(...).catch(() => func(url).then(...).catch(() => func(url)))`,
so a new attempt with the identical URL starts only inside a `.catch`,
and at most three attempts run in total.  An attempt's fate is the
event its own script tag receives; the model records the URLs passed
to `func`, in order. -/

/-- The CDN URL hardcoded at every call site of the promise loader. -/
def tailwindUrl : String := "https://cdn.jsdelivr.net/npm/@tailwindcss/browser@4"

/-- Fate of one load attempt: the promise either resolves (onload) or
rejects (onerror). -/
inductive Outcome where
  | resolved : Outcome
  | rejected : Outcome
deriving Repr, DecidableEq

/-- The URLs passed to `func` by the nested `.then`/`.catch` chain,
in order, when attempt `i` has fate `fate i`: the first call always
runs; each later call runs only in the `.catch` of the previous one. -/
def retryChainUrls (fate : Nat → Outcome) : List String :=
  match fate 0 with
  | Outcome.resolved => [tailwindUrl]
  | Outcome.rejected =>
      match fate 1 with
      | Outcome.resolved => [tailwindUrl, tailwindUrl]
      | Outcome.rejected => [tailwindUrl, tailwindUrl, tailwindUrl]

/-- C5: every attempt in the chain uses the identical hardcoded CDN
URL; at least one and at most three attempts run; if every attempt
rejects, exactly three run (the fixed hardcoded retry count); and if
attempt `k` is the first to resolve, no attempt runs after it. -/
theorem promise_retry_chain (fate : Nat → Outcome) :
    (∀ u ∈ retryChainUrls fate, u = tailwindUrl) ∧
    1 ≤ (retryChainUrls fate).length ∧
    (retryChainUrls fate).length ≤ 3 ∧
    ((∀ i < 3, fate i = Outcome.rejected) →
      (retryChainUrls fate).length = 3) ∧
    (∀ k < 3, fate k = Outcome.resolved →
      (∀ i < k, fate i = Outcome.rejected) →
      (retryChainUrls fate).length = k + 1) := by
  refine ⟨?_, ?_, ?_, ?_, ?_⟩
  · intro u hu
    unfold retryChainUrls at hu
    rcases h0 : fate 0 with _ | _ <;> rw [h0] at hu
    · simpa using hu
    · rcases h1 : fate 1 with _ | _ <;> rw [h1] at hu <;> simpa using hu
  · unfold retryChainUrls
    rcases h0 : fate 0 with _ | _
    · simp
    · rcases h1 : fate 1 with _ | _ <;> simp
  · unfold retryChainUrls
    rcases h0 : fate 0 with _ | _
    · simp
    · rcases h1 : fate 1 with _ | _ <;> simp
  · intro hall
    have h0 := hall 0 (by omega)
    have h1 := hall 1 (by omega)
    unfold retryChainUrls
    rw [h0, h1]
    simp
  · intro k hk hres hprev
    interval_cases k
    · unfold retryChainUrls
      rw [hres]
      simp
    · have h0 := hprev 0 (by omega)
      unfold retryChainUrls
      rw [h0, hres]
      simp
    · have h0 := hprev 0 (by omega)
      have h1 := hprev 1 (by omega)
      unfold retryChainUrls
      rw [h0, h1]
      simp

/-- Witness for C5: with every attempt rejecting, exactly 3 attempts
run; with the first attempt resolving, exactly 1 runs. -/
theorem promise_retry_chain_witness :
    (retryChainUrls (fun _ => Outcome.rejected)).length = 3 ∧
    (retryChainUrls (fun _ => Outcome.resolved)).length = 1 :=
  ⟨(promise_retry_chain (fun _ => Outcome.rejected)).2.2.2.1
      (fun _ _ => rfl),
   (promise_retry_chain (fun _ => Outcome.resolved)).2.2.2.2 0
      (by omega) rfl (fun i hi => absurd hi (by omega))⟩

/-! ## Student class hierarchy (src/classes/constructor.js)

Mutable object fields become an explicit record; every field that a
JS object may leave `undefined` is an `Option`.  Console output is a
`List String`, one entry per `console.log` call.  String
interpolation of `undefined` produces the text "undefined", which
`showOpt` / `showOptNat` reproduce. -/

/-- JS string concatenation of a possibly-undefined string field. -/
def showOpt : Option String → String
  | none => "undefined"
  | some s => s

/-- JS string concatenation of a possibly-undefined numeric field. -/
def showOptNat : Option Nat → String
  | none => "undefined"
  | some n => toString n

/-- JS `n.toString().padStart(2, '0')`. -/
def padStart2 (n : Nat) : String :=
  let s := toString n
  if s.length < 2 then "0" ++ s else s

/-- The fields of a `Student` object.  `hours`, `minutes`, `seconds`
and `date` exist only after `submit()` runs. -/
structure Student where
  name : Option String
  program : Option String
  hours : Option String
  minutes : Option String
  seconds : Option String
  date : Option String
deriving Repr, DecidableEq

/-- `new Student(name, program)`: assigns `this.name = name`, then
overwrites it with `name.toUpperCase()`, likewise for `program`, and
logs the pending-form message. -/
def Student.construct (name program : String) : Student × List String :=
  let s0 : Student := ⟨none, none, none, none, none, none⟩
  let s1 := { s0 with name := some name }
  let s2 := { s1 with name := some name.toUpper }
  let s3 := { s2 with program := some program }
  let s4 := { s3 with program := some program.toUpper }
  (s4, [showOpt s4.name ++ " Your Form is in panding please submit it first"])

/-- `submit()`: logs the submission message, then stamps the four
timestamp fields from the current date.  The date string interpolates
`getMonth()` raw (zero-based). -/
def Student.submit (s : Student) (now : JSDate) : Student × List String :=
  ({ s with hours := some (padStart2 now.getHours),
            minutes := some (padStart2 now.getMinutes),
            seconds := some (padStart2 now.getSeconds),
            date := some (toString now.getDate ++ "/" ++
                          toString now.getMonth ++ "/" ++
                          toString now.getFullYear) },
   [showOpt s.name ++ " Your Form is subbmitted For Prgram " ++
      showOpt s.program])

/-- `cancel()`: logs the cancellation message (with the current date,
`getMonth()` again raw) and sets `name` and `program` to undefined. -/
def Student.cancel (s : Student) (x : JSDate) : Student × List String :=
  ({ s with name := none, program := none },
   [showOpt s.name ++ " Your Form was Cancelled " ++ " on  " ++
      toString x.getDate ++ "/" ++ toString x.getMonth ++ "/" ++
      toString x.getFullYear ++ " For Program " ++ showOpt s.program])

/-- `info()`: if `this.name == undefined`, logs "Student not exits!";
otherwise logs the header and the name/program/timestamp block. -/
def Student.info (s : Student) : List String :=
  if s.name = none then ["Student not exits!"]
  else ["\nStudent Informations:",
        "Name: " ++ showOpt s.name ++ "\nProgram: " ++ showOpt s.program ++
          "\nDate: " ++ showOpt s.hours ++ ":" ++ showOpt s.minutes ++ ":" ++
          showOpt s.seconds ++ " on " ++ showOpt s.date]

/-- `class CS_Student extends Student`: the inherited fields plus
`rnumber` and `nice`, which exist only after `add()` runs. -/
structure CS_Student extends Student where
  rnumber : Option Nat
  nice : Option Nat
deriving Repr, DecidableEq

/-- `new CS_Student(name, program)`: the inherited constructor runs;
`rnumber` and `nice` start undefined. -/
def CS_Student.construct (name program : String) :
    CS_Student × List String :=
  let p := Student.construct name program
  ({ toStudent := p.1, rnumber := none, nice := none }, p.2)

/-- `add(rnumber, nice)`: sets the two subclass fields. -/
def CS_Student.add (cs : CS_Student) (rnumber nice : Nat) : CS_Student :=
  { cs with rnumber := some rnumber, nice := some nice }

/-- `submit()` inherited from `Student`, acting on the embedded base
fields. -/
def CS_Student.submit (cs : CS_Student) (now : JSDate) :
    CS_Student × List String :=
  let p := Student.submit cs.toStudent now
  ({ cs with toStudent := p.1 }, p.2)

/-- `cancel()` inherited from `Student`. -/
def CS_Student.cancel (cs : CS_Student) (x : JSDate) :
    CS_Student × List String :=
  let p := Student.cancel cs.toStudent x
  ({ cs with toStudent := p.1 }, p.2)

/-- The overriding `CS_Student.info()`: the same undefined-name guard,
then `super.info()` followed by one `console.log` printing the roll
number and NICE lines. -/
def CS_Student.info (cs : CS_Student) : List String :=
  if cs.name = none then ["Student not exits!"]
  else cs.toStudent.info ++
    ["\nRoll Number: " ++ showOptNat cs.rnumber ++
       "\nNICE: " ++ showOptNat cs.nice]

/-- The four timestamp fields are all defined (not `undefined`). -/
def tsDefined (s : Student) : Bool :=
  s.hours.isSome && s.minutes.isSome && s.seconds.isSome && s.date.isSome

/-- The method calls a `Student` object can receive after
construction. -/
inductive StudentOp where
  | submitOp : JSDate → StudentOp
  | cancelOp : JSDate → StudentOp
  | infoOp : StudentOp
deriving Repr

/-- Whether an operation is a `submit()` call. -/
def StudentOp.isSubmit : StudentOp → Bool
  | StudentOp.submitOp _ => true
  | _ => false

/-- The state change of one method call (`info()` only reads). -/
def applyOp (s : Student) : StudentOp → Student
  | StudentOp.submitOp now => (s.submit now).1
  | StudentOp.cancelOp x => (s.cancel x).1
  | StudentOp.infoOp => s

/-- Run a sequence of method calls on a `Student`. -/
def runOps (s : Student) (ops : List StudentOp) : Student :=
  ops.foldl applyOp s

/-- The method calls a `CS_Student` object can receive. -/
inductive CSOp where
  | submitOp : JSDate → CSOp
  | cancelOp : JSDate → CSOp
  | addOp : Nat → Nat → CSOp
  | infoOp : CSOp
deriving Repr

/-- Whether a `CS_Student` operation is a `submit()` call. -/
def CSOp.isSubmit : CSOp → Bool
  | CSOp.submitOp _ => true
  | _ => false

/-- The state change of one `CS_Student` method call. -/
def applyCSOp (cs : CS_Student) : CSOp → CS_Student
  | CSOp.submitOp now => (cs.submit now).1
  | CSOp.cancelOp x => (cs.cancel x).1
  | CSOp.addOp r n => cs.add r n
  | CSOp.infoOp => cs

/-- Run a sequence of method calls on a `CS_Student`. -/
def runCSOps (cs : CS_Student) (ops : List CSOp) : CS_Student :=
  ops.foldl applyCSOp cs

theorem tsDefined_runOps (s : Student) (ops : List StudentOp) :
    tsDefined (runOps s ops) = (tsDefined s || ops.any StudentOp.isSubmit) := by
  induction ops generalizing s with
  | nil => simp [runOps]
  | cons op rest ih =>
    have hstep : runOps s (op :: rest) = runOps (applyOp s op) rest := rfl
    rw [hstep, ih]
    cases op with
    | submitOp now =>
        simp [applyOp, tsDefined, Student.submit, StudentOp.isSubmit]
    | cancelOp x =>
        simp [applyOp, tsDefined, Student.cancel, StudentOp.isSubmit]
    | infoOp => simp [applyOp, StudentOp.isSubmit]

theorem tsDefined_runCSOps (cs : CS_Student) (ops : List CSOp) :
    tsDefined (runCSOps cs ops).toStudent =
      (tsDefined cs.toStudent || ops.any CSOp.isSubmit) := by
  induction ops generalizing cs with
  | nil => simp [runCSOps]
  | cons op rest ih =>
    have hstep : runCSOps cs (op :: rest) = runCSOps (applyCSOp cs op) rest := rfl
    rw [hstep, ih]
    cases op with
    | submitOp now =>
        simp [applyCSOp, tsDefined, CS_Student.submit, Student.submit,
              CSOp.isSubmit]
    | cancelOp x =>
        simp [applyCSOp, tsDefined, CS_Student.cancel, Student.cancel,
              CSOp.isSubmit]
    | addOp r n =>
        simp [applyCSOp, tsDefined, CS_Student.add, CSOp.isSubmit]
    | infoOp => simp [applyCSOp, CSOp.isSubmit]

/-- C3: after `cancel()`, `info()` prints exactly "Student not exits!"
(and none of the name/program/timestamp lines), whatever the prior
state, for both `Student` and `CS_Student`. -/
theorem cancel_then_info (s : Student) (cs : CS_Student) (x y : JSDate) :
    Student.info (Student.cancel s x).1 = ["Student not exits!"] ∧
    CS_Student.info (CS_Student.cancel cs y).1 = ["Student not exits!"] := by
  constructor
  · simp [Student.info, Student.cancel]
  · simp [CS_Student.info, CS_Student.cancel, Student.cancel]

/-- C6: starting from a freshly constructed object, after any sequence
of method calls the four timestamp fields are defined exactly when the
sequence contains a `submit()` call — the constructor leaves them
undefined, `submit()` sets all four, and `cancel()`, `info()` (and
`add()` on the subclass) never set or clear them. -/
theorem timestamp_iff_submitted (name program : String)
    (ops : List StudentOp) (csops : List CSOp) :
    tsDefined (runOps (Student.construct name program).1 ops) =
      ops.any StudentOp.isSubmit ∧
    tsDefined (runCSOps (CS_Student.construct name program).1 csops).toStudent =
      csops.any CSOp.isSubmit := by
  constructor
  · rw [tsDefined_runOps]
    simp [Student.construct, tsDefined]
  · rw [tsDefined_runCSOps]
    simp [CS_Student.construct, Student.construct, tsDefined]

/-- C7: `cancel()` sets exactly `name` and `program` to undefined and
leaves every other field unchanged, for both classes (for
`CS_Student`, also `rnumber` and `nice` are untouched). -/
theorem cancel_frame (s : Student) (cs : CS_Student) (x y : JSDate) :
    (Student.cancel s x).1.name = none ∧
    (Student.cancel s x).1.program = none ∧
    (Student.cancel s x).1.hours = s.hours ∧
    (Student.cancel s x).1.minutes = s.minutes ∧
    (Student.cancel s x).1.seconds = s.seconds ∧
    (Student.cancel s x).1.date = s.date ∧
    (CS_Student.cancel cs y).1.name = none ∧
    (CS_Student.cancel cs y).1.program = none ∧
    (CS_Student.cancel cs y).1.hours = cs.hours ∧
    (CS_Student.cancel cs y).1.minutes = cs.minutes ∧
    (CS_Student.cancel cs y).1.seconds = cs.seconds ∧
    (CS_Student.cancel cs y).1.date = cs.date ∧
    (CS_Student.cancel cs y).1.rnumber = cs.rnumber ∧
    (CS_Student.cancel cs y).1.nice = cs.nice :=
  ⟨rfl, rfl, rfl, rfl, rfl, rfl, rfl, rfl, rfl, rfl, rfl, rfl, rfl, rfl⟩

/-- C8: when the name is defined, `CS_Student.info()` produces exactly
the output of `Student.info()` on the same state followed by the extra
log printing the roll-number and NICE lines. -/
theorem cs_info_extends_super (cs : CS_Student) (h : cs.name ≠ none) :
    CS_Student.info cs =
      Student.info cs.toStudent ++
        ["\nRoll Number: " ++ showOptNat cs.rnumber ++
           "\nNICE: " ++ showOptNat cs.nice] := by
  simp [CS_Student.info, h]

/-- Witness for C8 on the concrete student built in the script. -/
theorem cs_info_extends_super_witness :
    CS_Student.info
        ⟨⟨some "RIZWAN AHMED ", some "INOFRMATION TEHCNOLOGY",
          none, none, none, none⟩, some 30, some 5429332333552⟩ =
      Student.info
          ⟨some "RIZWAN AHMED ", some "INOFRMATION TEHCNOLOGY",
            none, none, none, none⟩ ++
        ["\nRoll Number: " ++ showOptNat (some 30) ++
           "\nNICE: " ++ showOptNat (some 5429332333552)] :=
  cs_info_extends_super
    ⟨⟨some "RIZWAN AHMED ", some "INOFRMATION TEHCNOLOGY",
      none, none, none, none⟩, some 30, some 5429332333552⟩
    (by simp)

/-- C9: the constructor stores `name.toUpperCase()` and
`program.toUpperCase()`; the finished object retains nothing of the
original-case inputs, for both classes. -/
theorem constructor_uppercases (name program : String) :
    (Student.construct name program).1 =
      ⟨some name.toUpper, some program.toUpper, none, none, none, none⟩ ∧
    (CS_Student.construct name program).1 =
      ⟨⟨some name.toUpper, some program.toUpper, none, none, none, none⟩,
        none, none⟩ :=
  ⟨rfl, rfl⟩

/-- C10: for a call made in calendar month m (1..12), the month
component of the `d/m/yyyy` string built by `submit()` — and of the
date printed by `cancel()` — is `m - 1`, because `getMonth()` is used
without adding 1. -/
theorem date_month_zero_based (s : Student) (now : JSDate) (m : Nat)
    (hm : now.month = m) (h1 : 1 ≤ m) (h2 : m ≤ 12) :
    (Student.submit s now).1.date =
      some (toString now.day ++ "/" ++ toString (m - 1) ++ "/" ++
        toString now.year) ∧
    (Student.cancel s now).2 =
      [showOpt s.name ++ " Your Form was Cancelled " ++ " on  " ++
        toString now.day ++ "/" ++ toString (m - 1) ++ "/" ++
        toString now.year ++ " For Program " ++ showOpt s.program] := by
  subst hm
  exact ⟨rfl, rfl⟩

/-- Witness for C10: a call in calendar month 10 produces "9" as the
month component. -/
theorem date_month_zero_based_witness :
    (Student.submit ⟨some "A", some "B", none, none, none, none⟩
        ⟨10, 20, 30, 12, 10, 2025⟩).1.date = some "12/9/2025" ∧
    (Student.cancel ⟨some "A", some "B", none, none, none, none⟩
        ⟨10, 20, 30, 12, 10, 2025⟩).2 =
      ["A Your Form was Cancelled  on  12/9/2025 For Program B"] := by
  have h := date_month_zero_based
    ⟨some "A", some "B", none, none, none, none⟩
    ⟨10, 20, 30, 12, 10, 2025⟩ 10 rfl (by decide) (by decide)
  exact ⟨by rw [h.1]; decide, by rw [h.2]; decide⟩
